import Mathlib

/-
Verification development for the Cross-Site Input Resolution & Injection
Engine of the ai-prompt-manager browser extension.  The definitions below
are a shallow embedding of src/src/content/js/content.js: the platform
predicates (isChatGPTPage .. isQwenPage, isSupportedAIPage), the input
locator (findAIInput), the variable template resolver (the placeholder
scan and substitution inside insertPromptText / showVariableInputModal),
the insertion strategy cascade (_performInsertion with its inner
insertWithDirectMethod and setCursorToEnd), and the send cascade
(sendPrompt / sendViaKeyboard).  DOM elements are modelled as records of
the attributes the selectors and the cascade inspect; CSS selectors are
modelled as decidable predicates over those records; a document is a list
of elements in document order; external non-determinism (clipboard
availability, whether a synthetic paste or input event actually produced
content, whether a framework change handler is attached) is an explicit
environment record.
-/

namespace APM

/-- Substring test on strings, modelling JavaScript `String.prototype.includes`. -/
def strContains (s sub : String) : Bool :=
  s.toList.tails.any (fun t => sub.toList.isPrefixOf t)

/-- Longest leading run of characters that are not a brace and not a newline,
together with the rest, modelling the greedy regex fragment in
`insertPromptText`.  Returns (run, remainder). -/
def takeName : List Char → List Char × List Char
  | [] => ([], [])
  | c :: rest =>
    if c = '{' ∨ c = '}' ∨ c = '\n' then ([], c :: rest)
    else ((takeName rest).1.cons c, (takeName rest).2)

/-- One scan of the global regex in `insertPromptText`, fuel-indexed so the
definition is structural (the fuel is the length of the list, which bounds
the recursion: every step consumes at least one character).  A match is a
brace, a non-empty brace-and-newline-free run, and a closing brace; on a
failed match the scan advances one character, as `RegExp.exec` does. -/
def scanVarsAux : Nat → List Char → List String
  | 0, _ => []
  | _ + 1, [] => []
  | fuel + 1, c :: rest =>
    if c = '{' then
      if (takeName rest).1 ≠ [] ∧ (takeName rest).2.head? = some '}' then
        String.mk (takeName rest).1 :: scanVarsAux fuel (takeName rest).2.tail
      else scanVarsAux fuel rest
    else scanVarsAux fuel rest

/-- All placeholder tokens of a template, in occurrence order, repeats kept. -/
def scanVars (l : List Char) : List String := scanVarsAux l.length l

/-- Keep the first occurrence of each string, dropping later repeats: the
insertion-ordered behaviour of the JavaScript `Set` in `insertPromptText`. -/
def dedupFirst (l : List String) : List String :=
  l.foldl (fun acc v => if v ∈ acc then acc else acc ++ [v]) []

/-- Whitespace trim on a character list, modelling `String.prototype.trim`. -/
def trimChars (l : List Char) : List Char :=
  ((l.dropWhile Char.isWhitespace).reverse.dropWhile Char.isWhitespace).reverse

/-- The distinct placeholder names of a template in first-occurrence order,
with names that trim to the empty string filtered out, exactly as
`insertPromptText` collects them into a `Set`. -/
def extractVariables (text : String) : List String :=
  dedupFirst ((scanVars text.toList).filter (fun s => trimChars s.toList ≠ []))

/-- Replace every non-overlapping occurrence of the pattern `p :: ps` by
`repl`, scanning left to right and continuing after the replacement, the
semantics of `String.prototype.replace` with a global regex of a literal.
Fuel-indexed structural recursion; the fuel is the input length, which
bounds the recursion since every step consumes at least one character. -/
def replaceAllAux (p : Char) (ps repl : List Char) : Nat → List Char → List Char
  | 0, l => l
  | _ + 1, [] => []
  | fuel + 1, c :: rest =>
    if c = p ∧ ps.isPrefixOf rest then
      repl ++ replaceAllAux p ps repl fuel (rest.drop ps.length)
    else
      c :: replaceAllAux p ps repl fuel rest

/-- Replace every occurrence of `pat` in `s` by `repl`. -/
def replaceAll (s pat repl : String) : String :=
  match pat.toList with
  | [] => s
  | p :: ps => String.mk (replaceAllAux p ps repl.toList s.toList.length s.toList)

/-- The substitution loop of `insertPromptText`: for each entered (name,
value) pair, in order, replace every occurrence of the braced name. -/
def substituteVariables (text : String) (vals : List (String × String)) : String :=
  vals.foldl (fun t kv => replaceAll t (String.mk ('{' :: kv.1.toList ++ ['}'])) kv.2) text

/-- A DOM element, restricted to the attributes the engine inspects: tag
name (lowercase), id, class list, the contenteditable attribute, role,
enterkeyhint, data-id, data-testid, placeholder, the type attribute,
the tag names of its ancestors (for descendant selectors), layout
visibility (offsetParent non-null), its textual content (value for form
controls, textContent for editable regions), and the selection range. -/
structure Element where
  tag : String := ""
  id : String := ""
  classes : List String := []
  contenteditable : Bool := false
  role : String := ""
  enterkeyhint : String := ""
  dataId : String := ""
  dataTestid : String := ""
  placeholder : String := ""
  typeAttr : String := ""
  ancestors : List String := []
  visible : Bool := false
  content : String := ""
  selStart : Nat := 0
  selEnd : Nat := 0
deriving Repr, DecidableEq

/-- The current page address: `window.location.href` and `window.location.pathname`. -/
structure Url where
  href : String
  pathname : String
deriving Repr, DecidableEq

/-- `isChatGPTPage` of content.js. -/
def isChatGPTPage (u : Url) : Bool :=
  strContains u.href "chat.openai.com" || strContains u.href "chatgpt.com"

/-- `isClaudePage` of content.js. -/
def isClaudePage (u : Url) : Bool := strContains u.href "claude.ai"

/-- `isGeminiPage` of content.js. -/
def isGeminiPage (u : Url) : Bool := strContains u.href "gemini.google.com"

/-- `isGrokPage` of content.js. -/
def isGrokPage (u : Url) : Bool :=
  strContains u.href "grok.com" ||
    (strContains u.href "x.com" && strContains u.pathname "/i/grok")

/-- `isPerplexityPage` of content.js. -/
def isPerplexityPage (u : Url) : Bool := strContains u.href "perplexity.ai"

/-- `isDeepSeekPage` of content.js. -/
def isDeepSeekPage (u : Url) : Bool := strContains u.href "chat.deepseek.com"

/-- `isDoubaoPage` of content.js. -/
def isDoubaoPage (u : Url) : Bool := strContains u.href "doubao.com"

/-- `isQwenPage` of content.js. -/
def isQwenPage (u : Url) : Bool :=
  strContains u.href "chat.qwen.ai" || strContains u.href "qianwen.aliyun.com"

/-- `isSupportedAIPage` of content.js. -/
def isSupportedAIPage (u : Url) : Bool :=
  isChatGPTPage u || isClaudePage u || isGeminiPage u || isGrokPage u ||
    isPerplexityPage u || isDeepSeekPage u || isDoubaoPage u || isQwenPage u

/-- The fixed set of site identities the engine distinguishes. -/
inductive PlatformIdentity
  | chatgpt | claude | gemini | grok | perplexity | deepseek | doubao | qwen | unknown
deriving Repr, DecidableEq

/-- The platform branching at the top of `findAIInput`, as a classifier:
the page predicates are tested in the order of the if/else chain. -/
def classify (u : Url) : PlatformIdentity :=
  if isChatGPTPage u then .chatgpt
  else if isClaudePage u then .claude
  else if isGeminiPage u then .gemini
  else if isGrokPage u then .grok
  else if isPerplexityPage u then .perplexity
  else if isDeepSeekPage u then .deepseek
  else if isDoubaoPage u then .doubao
  else if isQwenPage u then .qwen
  else .unknown

/-- A CSS selector, modelled as a decidable predicate on elements. -/
def Selector : Type := Element → Bool

/-- The ChatGPT selector list of `findAIInput`, one predicate per CSS
selector string, in source order. -/
def chatgptSelectors : List Selector :=
  [ fun el => el.id == "prompt-textarea",
    fun el => el.tag == "textarea" && el.dataId == "root",
    fun el => el.tag == "textarea" && strContains el.placeholder "Send",
    fun el => el.tag == "textarea" && strContains el.placeholder "Message",
    fun el => el.tag == "textarea" && strContains el.placeholder "发送",
    fun el => el.tag == "textarea" && strContains el.placeholder "消息",
    fun el => el.tag == "textarea" && el.ancestors.contains "main",
    fun el => el.tag == "textarea" && el.ancestors.contains "form",
    fun el => el.contenteditable && strContains el.dataTestid "composer",
    fun el => el.tag == "div" && el.contenteditable && el.role == "textbox",
    fun el => el.role == "textbox",
    fun el => el.tag == "textarea",
    fun el => el.tag == "div" && el.contenteditable ]

/-- The Claude selector list of `findAIInput`. -/
def claudeSelectors : List Selector :=
  [ fun el => el.tag == "div" && el.contenteditable && el.enterkeyhint == "enter",
    fun el => el.tag == "div" && el.classes.contains "ProseMirror" && el.contenteditable,
    fun el => el.tag == "div" && el.contenteditable,
    fun el => el.ancestors.contains "fieldset" && el.tag == "div" && el.contenteditable,
    fun el => el.role == "textbox",
    fun el => el.tag == "textarea" ]

/-- The Gemini selector list of `findAIInput`. -/
def geminiSelectors : List Selector :=
  [ fun el => el.ancestors.contains "rich-textarea" && el.classes.contains "ql-editor" && el.contenteditable,
    fun el => el.ancestors.contains "rich-textarea" && el.tag == "div" && el.contenteditable,
    fun el => el.tag == "div" && el.classes.contains "ql-editor" && el.contenteditable,
    fun el => el.tag == "div" && el.contenteditable && el.role == "textbox",
    fun el => el.role == "textbox" && el.contenteditable,
    fun el => el.tag == "div" && el.contenteditable,
    fun el => el.tag == "textarea" ]

/-- The Grok selector list of `findAIInput`. -/
def grokSelectors : List Selector :=
  [ fun el => el.tag == "div" && el.classes.contains "ProseMirror" && el.contenteditable,
    fun el => el.tag == "div" && el.classes.contains "tiptap" && el.contenteditable,
    fun el => el.tag == "div" && el.contenteditable && el.role == "textbox",
    fun el => el.tag == "div" && el.contenteditable,
    fun el => el.role == "textbox",
    fun el => el.tag == "textarea" ]

/-- The Perplexity selector list of `findAIInput`. -/
def perplexitySelectors : List Selector :=
  [ fun el => el.tag == "div" && el.contenteditable && el.role == "textbox",
    fun el => el.tag == "div" && el.contenteditable && el.classes.contains "overflow-auto",
    fun el => el.tag == "div" && el.contenteditable,
    fun el => el.role == "textbox",
    fun el => el.tag == "textarea" && strContains el.placeholder "Ask",
    fun el => el.tag == "textarea" && strContains el.placeholder "Follow",
    fun el => el.tag == "textarea" ]

/-- The DeepSeek selector list of `findAIInput`. -/
def deepseekSelectors : List Selector :=
  [ fun el => el.tag == "textarea" && strContains el.placeholder "输入",
    fun el => el.tag == "textarea" && el.classes.contains "el-textarea__inner",
    fun el => el.tag == "div" && el.contenteditable,
    fun el => el.role == "textbox",
    fun el => el.tag == "textarea",
    fun el => el.tag == "input" && el.typeAttr == "text" ]

/-- The Doubao selector list of `findAIInput`. -/
def doubaoSelectors : List Selector :=
  [ fun el => el.tag == "textarea" && strContains el.placeholder "输入",
    fun el => el.tag == "textarea" && strContains el.placeholder "请输入",
    fun el => el.tag == "div" && el.contenteditable && el.role == "textbox",
    fun el => el.tag == "div" && el.classes.contains "editor-content" && el.contenteditable,
    fun el => el.role == "textbox",
    fun el => el.tag == "textarea",
    fun el => el.tag == "div" && el.contenteditable ]

/-- The Qwen selector list of `findAIInput`. -/
def qwenSelectors : List Selector :=
  [ fun el => el.tag == "textarea" && strContains el.placeholder "输入",
    fun el => el.tag == "textarea" && strContains el.placeholder "问我",
    fun el => el.tag == "div" && el.contenteditable && el.role == "textbox",
    fun el => el.tag == "textarea" && el.classes.contains "ant-input",
    fun el => el.role == "textbox",
    fun el => el.tag == "textarea",
    fun el => el.tag == "div" && el.contenteditable ]

/-- The selector list `findAIInput` ends up with for each identity.  The
source initialises `let selectors = []` and has no else branch, so an
unclassified page keeps the empty list. -/
def selectorsFor : PlatformIdentity → List Selector
  | .chatgpt => chatgptSelectors
  | .claude => claudeSelectors
  | .gemini => geminiSelectors
  | .grok => grokSelectors
  | .perplexity => perplexitySelectors
  | .deepseek => deepseekSelectors
  | .doubao => doubaoSelectors
  | .qwen => qwenSelectors
  | .unknown => []

/-- The scanning loop of `findAIInput`: for each selector in order, query
all matches in document order and return the first whose offsetParent is
non-null; fall through to the next selector otherwise. -/
def findFirstVisible (dom : List Element) : List Selector → Option Element
  | [] => none
  | s :: rest =>
    match (dom.filter s).find? (fun el => el.visible) with
    | some el => some el
    | none => findFirstVisible dom rest

/-- `findAIInput` specialised to an already-classified identity. -/
def findAIInputFor (pid : PlatformIdentity) (dom : List Element) : Option Element :=
  findFirstVisible dom (selectorsFor pid)

/-- `findAIInput` of content.js: classify the page and scan its list. -/
def findAIInput (u : Url) (dom : List Element) : Option Element :=
  findAIInputFor (classify u) dom

/-- External outcomes the insertion cascade depends on: availability of the
Clipboard API, whether `navigator.clipboard.writeText` fulfills, whether
`document.execCommand` paste left content in the element, whether a
dispatched `insertText` InputEvent was handled by the host editor, whether
`document.execCommand` insertText reported success, whether a React props
or event-handlers key with an onChange is attached to the element, whether
the synchronous body throws, and whether the catch-handler clipboard copy
fulfills. -/
structure InsEnv where
  clipboardAvailable : Bool
  clipboardWriteOk : Bool
  pasteProducesContent : Bool
  inputEventProducesContent : Bool
  execInsertTextOk : Bool
  hasReactHandler : Bool
  throwsException : Bool
  copyFallbackOk : Bool
deriving Repr, DecidableEq

/-- The insertion techniques of `_performInsertion`, in cascade order:
clipboard write plus synthetic paste; direct value / textContent
assignment (with the insertText InputEvent attempt for editable regions);
`document.execCommand` insertText over a select-all; and the React
change-handler escape hatch. -/
inductive Strategy
  | clipboardPaste | directAssign | execInsertText | reactHandler
deriving Repr, DecidableEq

/-- The user notification a flow may surface via `showUserNotification`. -/
inductive Notif
  | inputNotFound | manualPasteInfo | bothFailedError
deriving Repr, DecidableEq

/-- How the promise returned by `_performInsertion` settles. -/
inductive InsPromise
  | resolvedP | rejectedP
deriving Repr, DecidableEq

/-- `setCursorToEnd` of content.js: for textarea and input elements set
selectionStart and selectionEnd to the text length; for contentEditable
elements place the caret at the end of the content; otherwise do nothing. -/
def setCursorToEnd (el : Element) (textLength : Nat) : Element :=
  if el.tag = "textarea" ∨ el.tag = "input" then
    { el with selStart := textLength, selEnd := textLength }
  else if el.contenteditable then
    { el with selStart := el.content.length, selEnd := el.content.length }
  else el

/-- What `insertWithDirectMethod` leaves behind: which strategies its body
ran, whether its success flag ended true, and the element's final state. -/
structure DirectResult where
  attempted : List Strategy
  success : Bool
  el : Element
deriving Repr, DecidableEq

/-- `insertWithDirectMethod` of content.js.  Method 1 (textarea): assign
value, cursor to end, dispatch events; success unconditionally.  Method 2
(contentEditable): clear, dispatch an insertText InputEvent and re-read;
if empty, assign textContent directly; success unconditionally either way.
Method 3 (only reached when neither applied): select all and
`execCommand` insertText; success iff the command reports true.  Method 4
(only when still unsuccessful): for this element kind the source assigns
no content (its value/textContent branches do not match) and invokes a
React onChange handler when one is attached, setting success iff found.
The promise resolves regardless. -/
def insertWithDirectMethod (text : String) (el : Element) (env : InsEnv) : DirectResult :=
  if el.tag = "textarea" then
    { attempted := [.directAssign], success := true,
      el := setCursorToEnd { el with content := text } text.length }
  else if el.contenteditable then
    let cleared : Element := { el with content := "" }
    let afterEvent : Element :=
      if env.inputEventProducesContent then { cleared with content := text } else cleared
    if afterEvent.content ≠ "" then
      { attempted := [.directAssign], success := true,
        el := setCursorToEnd afterEvent text.length }
    else
      { attempted := [.directAssign], success := true,
        el := setCursorToEnd { cleared with content := text } text.length }
  else
    if env.execInsertTextOk then
      { attempted := [.execInsertText], success := true,
        el := setCursorToEnd { el with content := text } text.length }
    else
      { attempted := [.execInsertText, .reactHandler], success := env.hasReactHandler,
        el := setCursorToEnd el text.length }

/-- The verification re-read of `_performInsertion`: value or textContent
non-empty. -/
def hasContent (el : Element) : Bool := el.content ≠ ""

/-- Effect of a successful synthetic paste: natively editable surfaces
receive the clipboard text; other elements are untouched. -/
def pasteWrite (el : Element) (text : String) : Element :=
  if el.tag = "textarea" ∨ el.contenteditable ∨ el.tag = "input" then
    { el with content := text }
  else el

/-- The observable outcome of `_performInsertion`: how the promise
settles, the strategies run, the final success flag, the element's final
state, the clipboard contents it wrote, and the notification surfaced. -/
structure InsResult where
  promise : InsPromise
  attempted : List Strategy
  verified : Bool
  el : Option Element
  clipboard : Option String
  notified : Option Notif
deriving Repr, DecidableEq

/-- `_performInsertion` of content.js over the model.  `found` is what
`findChatGPTInput` returned.  Not-found rejects with an error
notification.  A thrown exception goes to the catch handler: copy to
clipboard and notify manual paste when the Clipboard API works (resolve),
otherwise reject.  Otherwise, with the Clipboard API available and the
write fulfilled: clear the editable target, synthesize a paste, and
re-read; content present resolves verified with the cursor at the end,
else fall into `insertWithDirectMethod`.  With the API unavailable or the
write rejected, go to `insertWithDirectMethod` directly.  The direct
method resolves whether or not its success flag is set. -/
def performInsertion (text : String) (found : Option Element) (env : InsEnv) : InsResult :=
  match found with
  | none =>
    { promise := .rejectedP, attempted := [], verified := false, el := none,
      clipboard := none, notified := some .inputNotFound }
  | some el0 =>
    if env.throwsException then
      if env.clipboardAvailable then
        if env.copyFallbackOk then
          { promise := .resolvedP, attempted := [], verified := false, el := some el0,
            clipboard := some text, notified := some .manualPasteInfo }
        else
          { promise := .rejectedP, attempted := [], verified := false, el := some el0,
            clipboard := none, notified := some .bothFailedError }
      else
        { promise := .rejectedP, attempted := [], verified := false, el := some el0,
          clipboard := none, notified := none }
    else if env.clipboardAvailable then
      if env.clipboardWriteOk then
        let cleared : Element :=
          if el0.tag = "textarea" then { el0 with content := "" }
          else if el0.contenteditable then { el0 with content := "" }
          else el0
        let pasted : Element :=
          if env.pasteProducesContent then pasteWrite cleared text else cleared
        if hasContent pasted then
          { promise := .resolvedP, attempted := [.clipboardPaste], verified := true,
            el := some (setCursorToEnd pasted text.length),
            clipboard := some text, notified := none }
        else
          let d := insertWithDirectMethod text pasted env
          { promise := .resolvedP, attempted := .clipboardPaste :: d.attempted,
            verified := d.success, el := some d.el,
            clipboard := some text, notified := none }
      else
        let d := insertWithDirectMethod text el0 env
        { promise := .resolvedP, attempted := .clipboardPaste :: d.attempted,
          verified := d.success, el := some d.el,
          clipboard := none, notified := none }
    else
      let d := insertWithDirectMethod text el0 env
      { promise := .resolvedP, attempted := d.attempted,
        verified := d.success, el := some d.el,
        clipboard := none, notified := none }

/-- How the variable-input modal of `showVariableInputModal` ends: the
insert button commits the entered values (one per prompted field, in
prompt order), or the cancel button / overlay click rejects. -/
inductive ModalOutcome
  | submitted (vals : List (String × String))
  | cancelled
deriving Repr, DecidableEq

/-- Observable milestones of one injection flow, in the order they occur:
the resolution modal opening and settling, `_performInsertion` being
invoked and its promise settling, and the send cascade starting and
settling. -/
inductive Ev
  | resolveStart | resolveEnd | insertStart | insertSettle | sendStart | sendEnd
deriving Repr, DecidableEq

/-- What `insertPromptText` leaves behind: its event trace, whether
`_performInsertion` ran, the final state of the located target, and
whether its returned promise fulfilled. -/
structure FlowResult where
  trace : List Ev
  inserted : Bool
  el : Option Element
  fulfilled : Bool
deriving Repr, DecidableEq

/-- `insertPromptText` of content.js.  No placeholders: insert at once.
Otherwise await the modal: cancellation is caught and returns before
`_performInsertion` is called (the promise still fulfills); a commit
substitutes the values and then inserts.  `found` is the element
`findChatGPTInput` would return once insertion runs; on cancellation the
page is untouched, so the target keeps exactly that state. -/
def insertPromptText (text : String) (modal : ModalOutcome) (found : Option Element)
    (env : InsEnv) : FlowResult :=
  if extractVariables text = [] then
    let r := performInsertion text found env
    { trace := [.insertStart, .insertSettle], inserted := true, el := r.el,
      fulfilled := decide (r.promise = .resolvedP) }
  else
    match modal with
    | .cancelled =>
      { trace := [.resolveStart, .resolveEnd, .insertSettle], inserted := false,
        el := found, fulfilled := true }
    | .submitted vals =>
      let r := performInsertion (substituteVariables text vals) found env
      { trace := [.resolveStart, .resolveEnd, .insertStart, .insertSettle],
        inserted := true, el := r.el, fulfilled := decide (r.promise = .resolvedP) }

/-- The send-button handler of `attachPromptItemEvents`: chain
`insertPromptText`, a settle delay, then `sendPrompt`; the catch branch
skips the send when the insertion promise rejected. -/
def attachSendFlow (text : String) (modal : ModalOutcome) (found : Option Element)
    (env : InsEnv) : List Ev :=
  let f := insertPromptText text modal found env
  if f.fulfilled then f.trace ++ [.sendStart, .sendEnd] else f.trace

/-- Strict precedence in a trace: whenever `b` occurs, `a` occurs at a
strictly earlier position. -/
def Precedes (tr : List Ev) (a b : Ev) : Prop :=
  b ∈ tr → a ∈ tr ∧ tr.indexOf a < tr.indexOf b

instance (tr : List Ev) (a b : Ev) : Decidable (Precedes tr a b) :=
  decidable_of_iff (b ∈ tr → a ∈ tr ∧ tr.indexOf a < tr.indexOf b) Iff.rfl

/-- A send control as `sendPrompt` inspects it: layout visibility and the
disabled flag. -/
structure SendBtn where
  visible : Bool
  disabled : Bool
deriving Repr, DecidableEq

/-- The ChatGPT send-button selector strings of `sendPrompt`. -/
def chatgptSendSelectors : List String :=
  [ "button[data-testid=\"send-button\"]",
    "button[aria-label=\"Send prompt\"]",
    "button[aria-label=\"发送提示\"]",
    "form button[type=\"submit\"]",
    "button.absolute.p-1.rounded-md" ]

/-- The Gemini send-button selector strings of `sendPrompt`. -/
def geminiSendSelectors : List String :=
  [ "button[aria-label=\"Send message\"]",
    "button[aria-label=\"发送消息\"]",
    "button.send-button",
    "button[mattooltip*=\"Send\"]",
    "button[mattooltip*=\"发送\"]",
    ".input-area-container button[aria-label*=\"send\" i]",
    "button[jsname][data-idom-class*=\"send\"]" ]

/-- The Grok send-button selector strings of `sendPrompt`. -/
def grokSendSelectors : List String :=
  [ "button[aria-label=\"Send\"]",
    "button[aria-label=\"发送\"]",
    "button[data-testid=\"send-button\"]",
    "form button[type=\"submit\"]" ]

/-- The Perplexity send-button selector strings of `sendPrompt`. -/
def perplexitySendSelectors : List String :=
  [ "button[aria-label=\"Submit\"]",
    "button[aria-label=\"提交\"]",
    "button.bg-super",
    "button[type=\"submit\"]" ]

/-- The DeepSeek send-button selector strings of `sendPrompt`. -/
def deepseekSendSelectors : List String :=
  [ "button[aria-label=\"发送\"]",
    "button[aria-label=\"Send\"]",
    "div[role=\"button\"][aria-label*=\"发送\"]",
    "button.el-button--primary",
    "form button[type=\"submit\"]" ]

/-- The Qwen send-button selector strings of `sendPrompt`. -/
def qwenSendSelectors : List String :=
  [ "button[aria-label=\"发送\"]",
    "button[aria-label=\"Send\"]",
    "button.ant-btn-primary",
    "button[type=\"submit\"]" ]

/-- The generic fallback send-button selector strings of `sendPrompt`. -/
def genericSendSelectors : List String :=
  [ "button[type=\"submit\"]",
    "button[aria-label*=\"send\" i]",
    "button[aria-label*=\"发送\"]",
    "form button:last-of-type" ]

/-- The send-button selector list `sendPrompt` chooses per platform; the
else branch of its if/else chain supplies the generic fallback list. -/
def sendButtonSelectorsFor : PlatformIdentity → List String
  | .chatgpt => chatgptSendSelectors
  | .gemini => geminiSendSelectors
  | .grok => grokSendSelectors
  | .perplexity => perplexitySendSelectors
  | .deepseek => deepseekSendSelectors
  | .qwen => qwenSendSelectors
  | _ => genericSendSelectors

/-- The send-button search loop of `sendPrompt`: for each selector take
the page's first match (`document.querySelector`) and stop at the first
one that is laid out; an invisible first match moves on to the next
selector. -/
def findSendButton (q : String → Option SendBtn) : List String → Option SendBtn
  | [] => none
  | s :: rest =>
    match q s with
    | some b => if b.visible then some b else findSendButton q rest
    | none => findSendButton q rest

/-- The dispatches of `sendViaKeyboard` and of the button click path, in
order: a click after the settle delay, or the Enter keydown, keypress,
the short delay, keyup and the trailing input event. -/
inductive SendEv
  | clickButton | keydown | keypress | keyupDelay | keyup | inputEvent
deriving Repr, DecidableEq

/-- The event sequence `sendViaKeyboard` dispatches on the target. -/
def keyboardSeq : List SendEv :=
  [.keydown, .keypress, .keyupDelay, .keyup, .inputEvent]

/-- `sendPrompt` of content.js.  `q` is `document.querySelector` over the
page; `targetFound` is whether `findChatGPTInput` succeeded (otherwise
reject).  Claude and Doubao take the keyboard-first branch with no button
search.  Otherwise the platform's selector list is searched; a visible,
non-disabled button is clicked after the settle delay; a missing or
disabled result falls back to `sendViaKeyboard`. -/
def sendPrompt (pid : PlatformIdentity) (q : String → Option SendBtn)
    (targetFound : Bool) : Option (List SendEv) :=
  if ¬targetFound then none
  else if pid = .claude ∨ pid = .doubao then some keyboardSeq
  else
    match findSendButton q (sendButtonSelectorsFor pid) with
    | some b => if ¬b.disabled then some [.clickButton] else some keyboardSeq
    | none => some keyboardSeq

/-- A plain, visible, empty text field (a generic `textarea`). -/
def plainField : Element := { tag := "textarea", visible := true }

/-- A visible plain text input, the element kind reached only by strategies
three and four of the cascade. -/
def inputField : Element := { tag := "input", typeAttr := "text", visible := true }

/-- A visible plain `div` carrying the id `prompt-textarea` but none of the
text-entry-surface attributes: not a textarea or input, not
contenteditable, no textbox role. -/
def fakeDiv : Element := { tag := "div", id := "prompt-textarea", visible := true }

/-- A page address no site predicate matches. -/
def exampleUrl : Url := { href := "https://example.org/", pathname := "/" }

/-- An environment in which the Clipboard API is available and the write
fulfills but the synthetic paste and the later fallible strategies all
fail to take effect, and nothing throws. -/
def pasteFailEnv : InsEnv :=
  { clipboardAvailable := true, clipboardWriteOk := true, pasteProducesContent := false,
    inputEventProducesContent := false, execInsertTextOk := false, hasReactHandler := false,
    throwsException := false, copyFallbackOk := false }

/-- An environment with no Clipboard API and every fallible strategy
failing, and nothing throwing. -/
def noClipEnv : InsEnv :=
  { clipboardAvailable := false, clipboardWriteOk := false, pasteProducesContent := false,
    inputEventProducesContent := false, execInsertTextOk := false, hasReactHandler := false,
    throwsException := false, copyFallbackOk := false }

/-- An environment whose synchronous insertion body throws, with the
Clipboard API available and the catch-handler copy fulfilling. -/
def throwingEnv : InsEnv :=
  { clipboardAvailable := true, clipboardWriteOk := true, pasteProducesContent := false,
    inputEventProducesContent := false, execInsertTextOk := false, hasReactHandler := false,
    throwsException := true, copyFallbackOk := true }

/-- The acceptance predicate as the specification states it: tag is
textarea or input, or the contenteditable attribute is true, or an
explicit textbox role.  Stated from the spec's words for comparison; the
source's loop checks none of this. -/
def specTextEntrySurface (el : Element) : Bool :=
  el.tag == "textarea" || el.tag == "input" || el.contenteditable || el.role == "textbox"

end APM

namespace APM

theorem findFirstVisible_nil (dom : List Element) : findFirstVisible dom [] = none := rfl

theorem findFirstVisible_eq_none_iff (dom : List Element) (sels : List Selector) :
    findFirstVisible dom sels = none ↔
      ∀ s ∈ sels, (dom.filter s).find? (fun el => el.visible) = none := by
  induction sels with
  | nil => simp [findFirstVisible]
  | cons s rest ih =>
    simp only [findFirstVisible]
    cases h : (dom.filter s).find? (fun el => el.visible) with
    | some el =>
      constructor
      · intro hc
        exact absurd hc (by simp)
      · intro hall
        have hs := hall s (by simp)
        rw [h] at hs
        exact absurd hs (by simp)
    | none =>
      simp only [ih]
      constructor
      · intro hall t ht
        rcases List.mem_cons.mp ht with rfl | ht
        · exact h
        · exact hall t ht
      · intro hall t ht
        exact hall t (List.mem_cons_of_mem _ ht)

theorem findFirstVisible_eq_some (dom : List Element) (sels : List Selector)
    (el : Element) (h : findFirstVisible dom sels = some el) :
    ∃ pre s post, sels = pre ++ s :: post ∧
      (∀ s' ∈ pre, (dom.filter s').find? (fun e => e.visible) = none) ∧
      (dom.filter s).find? (fun e => e.visible) = some el := by
  induction sels with
  | nil => simp [findFirstVisible] at h
  | cons s rest ih =>
    simp only [findFirstVisible] at h
    cases hf : (dom.filter s).find? (fun e => e.visible) with
    | some el' =>
      rw [hf] at h
      refine ⟨[], s, rest, by simp, by simp, ?_⟩
      rw [hf]
      simpa using h
    | none =>
      rw [hf] at h
      obtain ⟨pre, t, post, hdec, hpre, hfind⟩ := ih h
      refine ⟨s :: pre, t, post, by simp [hdec], ?_, hfind⟩
      intro s' hs'
      rcases List.mem_cons.mp hs' with rfl | hs'
      · exact hf
      · exact hpre s' hs'

/-- Claim C1 counterexample: for a page whose URL matches no known site
predicate (identity `unknown`), the locator signals NotFound even on a
document whose only element is a visible generic `textarea` — it does not
fall back to a generic selector list and return that element. -/
theorem unknown_identity_no_fallback_cex :
    classify exampleUrl = PlatformIdentity.unknown ∧
      plainField.tag = "textarea" ∧ plainField.visible = true ∧
      selectorsFor PlatformIdentity.unknown = [] ∧
      findAIInput exampleUrl [plainField] = none := by
  refine ⟨by decide, rfl, rfl, rfl, by decide⟩

/-- Claim C1 (amended): for the unknown platform identity the selector
list `findAIInput` scans is empty, so the locator returns NotFound on
every document; there is no generic fallback list. -/
theorem unknown_identity_locator_none (u : Url) (dom : List Element)
    (h : classify u = PlatformIdentity.unknown) : findAIInput u dom = none := by
  unfold findAIInput findAIInputFor
  rw [h]
  rfl

/-- Witness for C1's amended theorem at a concrete unknown page and a
document holding a visible generic textarea. -/
theorem unknown_identity_locator_none_witness :
    classify exampleUrl = PlatformIdentity.unknown ∧
      findAIInput exampleUrl [plainField, fakeDiv] = none :=
  ⟨by decide, unknown_identity_locator_none exampleUrl [plainField, fakeDiv] (by decide)⟩

/-- Claim C7 counterexample: on a ChatGPT page whose only element is a
visible plain `div` with id `prompt-textarea`, the locator returns that
div even though it is not a text-entry surface in the claim's sense — the
loop accepts any visible selector match without checking tag,
contenteditable or role. -/
theorem locator_accepts_non_surface_cex :
    findAIInputFor PlatformIdentity.chatgpt [fakeDiv] = some fakeDiv ∧
      specTextEntrySurface fakeDiv = false := by
  exact ⟨by decide, by decide⟩

/-- Claim C7 (amended): for every identity, the locator scans the ordered
selector list and returns the first element, in document order within
each pattern, whose offsetParent is non-null (layout presence) — with no
further text-entry-surface check; an earlier pattern's visible match
always wins over any later pattern's, and NotFound is signalled exactly
when every pattern is exhausted without a visible match. -/
theorem locator_first_visible_match (pid : PlatformIdentity) (dom : List Element) :
    (findAIInputFor pid dom = none ↔
      ∀ s ∈ selectorsFor pid, (dom.filter s).find? (fun el => el.visible) = none) ∧
    (∀ el, findAIInputFor pid dom = some el →
      el.visible = true ∧
      ∃ pre s post, selectorsFor pid = pre ++ s :: post ∧
        (∀ s' ∈ pre, (dom.filter s').find? (fun e => e.visible) = none) ∧
        (dom.filter s).find? (fun e => e.visible) = some el) := by
  constructor
  · exact findFirstVisible_eq_none_iff dom (selectorsFor pid)
  · intro el h
    obtain ⟨pre, s, post, hdec, hpre, hfind⟩ :=
      findFirstVisible_eq_some dom (selectorsFor pid) el h
    exact ⟨List.find?_some hfind, pre, s, post, hdec, hpre, hfind⟩

/-- Claim C3: resolving the template with a duplicated placeholder
collapses repeats into one prompt per distinct name in first-occurrence
order (exactly one field for `a` and one for `b`), and substituting the
entered values replaces every occurrence, yielding "1-1-2". -/
theorem resolve_duplicate_placeholders :
    extractVariables "{a}-{a}-{b}" = ["a", "b"] ∧
      substituteVariables "{a}-{a}-{b}" [("a", "1"), ("b", "2")] = "1-1-2" := by
  exact ⟨by decide, by decide⟩

theorem setCursorToEnd_spec (el : Element) (n : Nat)
    (hed : el.tag = "textarea" ∨ el.tag = "input" ∨ el.contenteditable = true)
    (hc : el.content.length = n) :
    (setCursorToEnd el n).content = el.content ∧
      (setCursorToEnd el n).selStart = n ∧ (setCursorToEnd el n).selEnd = n := by
  unfold setCursorToEnd
  split
  · exact ⟨rfl, rfl, rfl⟩
  · split
    · exact ⟨rfl, hc, hc⟩
    · rename_i h1 h2
      rcases hed with h | h | h
      · exact absurd (Or.inl h) h1
      · exact absurd (Or.inr h) h1
      · exact absurd h (by simpa using h2)

theorem insertWithDirectMethod_editable (text : String) (el : Element) (env : InsEnv)
    (hkind : el.tag = "textarea" ∨ el.contenteditable = true) :
    (insertWithDirectMethod text el env).el.content = text ∧
      (insertWithDirectMethod text el env).el.selStart = text.length ∧
      (insertWithDirectMethod text el env).el.selEnd = text.length := by
  by_cases h1 : el.tag = "textarea"
  · have := setCursorToEnd_spec { el with content := text } text.length
      (Or.inl h1) rfl
    simpa [insertWithDirectMethod, h1] using this
  · have h2 : el.contenteditable = true := hkind.resolve_left h1
    have hcur := setCursorToEnd_spec
      { el with content := text } text.length (Or.inr (Or.inr h2)) rfl
    by_cases hie : env.inputEventProducesContent
    · by_cases ht : text = ""
      · simpa [insertWithDirectMethod, h1, h2, hie, ht] using hcur
      · simpa [insertWithDirectMethod, h1, h2, hie, ht] using hcur
    · simpa [insertWithDirectMethod, h1, h2, hie] using hcur

/-- Claim C6: with no exception thrown, inserting text into a plain text
field or a contenteditable region always ends, on every cascade path, with
the element's content equal to the inserted text and the caret collapsed
at its end (selection start and end both at the text's length). -/
theorem insert_sets_value_and_caret (text : String) (el : Element) (env : InsEnv)
    (hthrow : env.throwsException = false)
    (hkind : el.tag = "textarea" ∨ el.contenteditable = true) :
    ∃ elF, (performInsertion text (some el) env).el = some elF ∧
      elF.content = text ∧ elF.selStart = text.length ∧ elF.selEnd = text.length := by
  have hd0 := insertWithDirectMethod_editable text el env hkind
  have hdc := insertWithDirectMethod_editable text { el with content := "" } env
    (by exact hkind)
  have hdt := insertWithDirectMethod_editable text { el with content := text } env
    (by exact hkind)
  have hs := setCursorToEnd_spec { el with content := text } text.length
    (by exact Or.imp (fun h => h) (fun h => Or.inr h) hkind) rfl
  have hcleared :
      (if el.tag = "textarea" then { el with content := "" }
       else if el.contenteditable then { el with content := "" }
       else el) = { el with content := "" } := by
    rcases hkind with h | h
    · simp [h]
    · by_cases h1 : el.tag = "textarea" <;> simp [h1, h]
  have hpw : pasteWrite { el with content := "" } text = { el with content := text } := by
    unfold pasteWrite
    rcases hkind with h | h
    · simp [h]
    · by_cases h1 : el.tag = "textarea" <;> by_cases h3 : el.tag = "input" <;>
        simp [h1, h3, h]
  by_cases hca : env.clipboardAvailable
  · by_cases hcw : env.clipboardWriteOk
    · simp only [performInsertion, hthrow, Bool.false_eq_true, if_false, hca, if_true,
        hcw, hcleared]
      by_cases hpp : env.pasteProducesContent
      · simp only [hpp, if_true, hpw]
        split
        · exact ⟨_, rfl, hs.1, hs.2.1, hs.2.2⟩
        · exact ⟨_, rfl, hdt.1, hdt.2.1, hdt.2.2⟩
      · simp only [hpp, Bool.false_eq_true, if_false]
        split
        · rename_i hfalse
          exact absurd hfalse (by simp [hasContent])
        · exact ⟨_, rfl, hdc.1, hdc.2.1, hdc.2.2⟩
    · simp only [performInsertion, hthrow, Bool.false_eq_true, if_false, hca, if_true, hcw]
      exact ⟨_, rfl, hd0.1, hd0.2.1, hd0.2.2⟩
  · simp only [performInsertion, hthrow, Bool.false_eq_true, if_false, hca]
    exact ⟨_, rfl, hd0.1, hd0.2.1, hd0.2.2⟩

/-- Witness for C6 at the concrete scenario the specification gives:
inserting "hello" into an empty plain text field leaves value "hello"
with the caret at index 5. -/
theorem insert_sets_value_and_caret_witness :
    ∃ elF, (performInsertion "hello" (some plainField) noClipEnv).el = some elF ∧
      elF.content = "hello" ∧ elF.selStart = 5 ∧ elF.selEnd = 5 := by
  have h := insert_sets_value_and_caret "hello" plainField noClipEnv rfl (Or.inl rfl)
  simpa using h

/-- Claim C5: when the clipboard-paste strategy leaves no content (the
synthetic paste takes no effect on an initially empty target), the target
is neither a textarea nor contenteditable (so direct assignment cannot
apply), and the execCommand insertText strategy reports failure, the
fourth strategy — the React change-handler escape hatch — is attempted
last, and only its outcome decides whether the cascade ends verified; the
promise resolves either way. -/
theorem fourth_strategy_attempted (text : String) (el : Element) (env : InsEnv)
    (hthrow : env.throwsException = false)
    (hca : env.clipboardAvailable = true) (hcw : env.clipboardWriteOk = true)
    (hpp : env.pasteProducesContent = false) (hct : el.content = "")
    (htag : el.tag ≠ "textarea") (hce : el.contenteditable = false)
    (hexec : env.execInsertTextOk = false) :
    (performInsertion text (some el) env).attempted =
      [Strategy.clipboardPaste, Strategy.execInsertText, Strategy.reactHandler] ∧
    (performInsertion text (some el) env).verified = env.hasReactHandler ∧
    (performInsertion text (some el) env).promise = InsPromise.resolvedP := by
  simp [performInsertion, hthrow, hca, hcw, hpp, htag, hce, hasContent, hct,
    insertWithDirectMethod, hexec]

/-- Witness for C5: a plain text input with the paste, direct and
execCommand strategies failing and no React handler attached. -/
theorem fourth_strategy_attempted_witness :
    (performInsertion "hello" (some inputField) pasteFailEnv).attempted =
      [Strategy.clipboardPaste, Strategy.execInsertText, Strategy.reactHandler] ∧
    (performInsertion "hello" (some inputField) pasteFailEnv).verified =
      pasteFailEnv.hasReactHandler ∧
    (performInsertion "hello" (some inputField) pasteFailEnv).promise =
      InsPromise.resolvedP :=
  fourth_strategy_attempted "hello" inputField pasteFailEnv rfl rfl rfl rfl rfl
    (by decide) rfl rfl

/-- Claim C2 counterexample: with the Clipboard API unavailable and every
strategy failing verification on a located plain input, the flow resolves
with no notification surfaced and nothing copied to the clipboard — the
user is given no recourse, contrary to the claim. -/
theorem unverified_insertion_silent_cex :
    (performInsertion "hello" (some inputField) noClipEnv).verified = false ∧
    (performInsertion "hello" (some inputField) noClipEnv).notified = none ∧
    (performInsertion "hello" (some inputField) noClipEnv).clipboard = none ∧
    (performInsertion "hello" (some inputField) noClipEnv).promise = InsPromise.resolvedP := by
  exact ⟨by decide, by decide, by decide, by decide⟩

/-- Claim C2 (amended): the copy-to-clipboard safety net and the
manual-paste notification fire when the insertion body throws an
exception (and the Clipboard API is available and the copy fulfills); a
mere verification failure of every strategy resolves silently instead. -/
theorem exception_clipboard_fallback (text : String) (el : Element) (env : InsEnv)
    (hthrow : env.throwsException = true) (hca : env.clipboardAvailable = true)
    (hcopy : env.copyFallbackOk = true) :
    (performInsertion text (some el) env).clipboard = some text ∧
    (performInsertion text (some el) env).notified = some Notif.manualPasteInfo ∧
    (performInsertion text (some el) env).promise = InsPromise.resolvedP := by
  simp [performInsertion, hthrow, hca, hcopy]

/-- Witness for C2's amended theorem at a throwing environment. -/
theorem exception_clipboard_fallback_witness :
    (performInsertion "hello" (some plainField) throwingEnv).clipboard = some "hello" ∧
    (performInsertion "hello" (some plainField) throwingEnv).notified =
      some Notif.manualPasteInfo ∧
    (performInsertion "hello" (some plainField) throwingEnv).promise =
      InsPromise.resolvedP :=
  exception_clipboard_fallback "hello" plainField throwingEnv rfl rfl rfl

theorem performInsertion_resolves (text : String) (el : Element) (env : InsEnv)
    (hthrow : env.throwsException = false) :
    (performInsertion text (some el) env).promise = InsPromise.resolvedP := by
  by_cases hca : env.clipboardAvailable
  · by_cases hcw : env.clipboardWriteOk
    · simp only [performInsertion, hthrow, Bool.false_eq_true, if_false, hca, if_true, hcw]
      repeat' split
      all_goals rfl
    · simp [performInsertion, hthrow, hca, hcw]
  · simp [performInsertion, hthrow, hca]

/-- Claim C10: with an input element located, the insertion promise
rejects exactly when the body throws and the clipboard fallback cannot
complete (API unavailable or copy rejected); in particular it resolves
whenever nothing throws, regardless of whether any strategy verified.
Without a located element the promise always rejects. -/
theorem insertion_resolves_unless_not_found_or_exception (text : String) (el : Element)
    (env : InsEnv) :
    ((performInsertion text (some el) env).promise = InsPromise.rejectedP ↔
      env.throwsException = true ∧
        (env.clipboardAvailable = false ∨ env.copyFallbackOk = false)) ∧
    (performInsertion text none env).promise = InsPromise.rejectedP := by
  refine ⟨?_, rfl⟩
  by_cases ht : env.throwsException
  · by_cases hca : env.clipboardAvailable
    · by_cases hcf : env.copyFallbackOk <;> simp [performInsertion, ht, hca, hcf]
    · simp [performInsertion, ht, hca]
  · have hres := performInsertion_resolves text el env (by simpa using ht)
    simp [hres, ht]

/-- Claim C4: for a template with at least one placeholder, cancelling the
variable-input modal returns from `insertPromptText` before
`_performInsertion` is invoked: no insertion strategy runs and the target
element's state is exactly what it was. -/
theorem cancel_aborts_insertion (text : String) (found : Option Element) (env : InsEnv)
    (h : extractVariables text ≠ []) :
    (insertPromptText text ModalOutcome.cancelled found env).inserted = false ∧
    (insertPromptText text ModalOutcome.cancelled found env).el = found := by
  simp [insertPromptText, h]

/-- Witness for C4 at the one-placeholder template and an empty field. -/
theorem cancel_aborts_insertion_witness :
    extractVariables "{a}" ≠ [] ∧
      ((insertPromptText "{a}" ModalOutcome.cancelled (some plainField) noClipEnv).inserted
          = false ∧
        (insertPromptText "{a}" ModalOutcome.cancelled (some plainField) noClipEnv).el
          = some plainField) :=
  ⟨by decide, cancel_aborts_insertion "{a}" (some plainField) noClipEnv (by decide)⟩

/-- Claim C8: in every injection flow wired by the send-button handler,
the insertion promise settles strictly before the send cascade starts,
and when the template has placeholders the resolution modal settles
strictly before `_performInsertion` is invoked. -/
theorem flow_ordering (text : String) (modal : ModalOutcome) (found : Option Element)
    (env : InsEnv) :
    Precedes (attachSendFlow text modal found env) Ev.insertSettle Ev.sendStart ∧
    (extractVariables text ≠ [] →
      Precedes (attachSendFlow text modal found env) Ev.resolveEnd Ev.insertStart) := by
  unfold attachSendFlow insertPromptText
  by_cases h : extractVariables text = []
  · by_cases hp : (performInsertion text found env).promise = InsPromise.resolvedP <;>
      simp [h, hp] <;> decide
  · cases modal with
    | cancelled => simp [h] <;> decide
    | submitted vals =>
      by_cases hp :
          (performInsertion (substituteVariables text vals) found env).promise
            = InsPromise.resolvedP <;>
        simp [h, hp] <;> decide

/-- Claim C9: for Claude and Doubao (composers without a conventional
submit button) the send cascade goes straight to the keyboard strategy;
for every identity, when the button search yields no visible, enabled
control, the cascade falls back to the keyboard strategy; and the
keyboard strategy dispatches Enter keydown, keypress, then keyup after a
short delay, followed by a trailing input event. -/
theorem send_cascade_keyboard_fallback (pid : PlatformIdentity)
    (q : String → Option SendBtn) :
    ((pid = PlatformIdentity.claude ∨ pid = PlatformIdentity.doubao) →
      sendPrompt pid q true = some keyboardSeq) ∧
    ((∀ b, findSendButton q (sendButtonSelectorsFor pid) = some b → b.disabled = true) →
      sendPrompt pid q true = some keyboardSeq) ∧
    keyboardSeq =
      [SendEv.keydown, SendEv.keypress, SendEv.keyupDelay, SendEv.keyup, SendEv.inputEvent] := by
  refine ⟨fun h => by simp [sendPrompt, h], ?_, rfl⟩
  intro hall
  by_cases h : pid = PlatformIdentity.claude ∨ pid = PlatformIdentity.doubao
  · simp [sendPrompt, h]
  · cases hb : findSendButton q (sendButtonSelectorsFor pid) with
    | none => simp [sendPrompt, h, hb]
    | some b =>
      have hd := hall b hb
      simp [sendPrompt, h, hb, hd]

end APM
